import Mathlib

/-!
Verification of the TaskFlow chat-orchestration layer.

This development shallowly embeds the Python code of
`backend/src/mcp/server.py`, `backend/src/mcp/tools.py` and
`backend/src/agents/todo_agent.py` and proves or refutes the
specification's claims about it.

Modelling conventions, used throughout:
 - Python dicts (argument payloads, the registry's `_tools` mapping) are
   association lists with Python's assignment semantics: an existing key is
   updated in place, a new key is appended at the end.
 - JSON argument values are modelled by `Val` (string, boolean, null);
   Python truthiness on them is `pyTruthy`.
 - `UUID(s)` parsing is modelled as the identity on strings: task and user
   identifiers are opaque strings. No claim depends on UUID syntax; the
   handler branch where `UUID` raises on a malformed string is subsumed by
   the generic handler-failure path, which no claim exercises.
 - The SQL task table is a list of `Task` records in insertion order;
   `session.query(...).first()` is `List.find?`, a committed field update is
   `replaceFirst`, a committed delete is `removeFirst`.
 - `datetime.utcnow()` is an abstract tick passed in as `now : Nat`;
   database-generated primary keys are passed in as `freshId`.
 - Python string containment (`sub in s`) is `strContains`, `str.lower` is
   `pyLower`; apostrophes inside string literals are written `\x27`.
-/

namespace Taskflow

/-- Python list/str containment helper: does `pat` occur at the front of `l`? -/
def matchesFront : List Char → List Char → Bool
  | _, [] => true
  | [], _ :: _ => false
  | a :: l, b :: pat => a = b && matchesFront l pat

/-- Python substring search: does `pat` occur contiguously anywhere in `l`? -/
def occursIn : List Char → List Char → Bool
  | [], pat => pat.isEmpty
  | a :: l, pat => matchesFront (a :: l) pat || occursIn l pat

/-- Embedding of Python `sub in s` on strings (contiguous substring). -/
def strContains (s sub : String) : Bool :=
  occursIn s.data sub.data

/-- Embedding of Python `str.lower()`, as a character map (the source only
ever lowercases ASCII text, where `Char.toLower` agrees with Python). -/
def pyLower (s : String) : String :=
  String.mk (s.data.map Char.toLower)

/-- Embedding of Python `"\n".join(lines)`. -/
def joinNl : List String → String
  | [] => ""
  | [s] => s
  | s :: rest => s ++ "\n" ++ joinNl rest

/-- A JSON argument value as produced by `json.loads` on a tool-call payload. -/
inductive Val where
  | str (s : String)
  | bool (b : Bool)
  | null
deriving DecidableEq, Repr

/-- Python truthiness of a `Val` (`if task_id:` and friends). -/
def pyTruthy : Val → Bool
  | .str s => s ≠ ""
  | .bool b => b
  | .null => false

/-- A tool-call argument payload: a Python dict keyed by strings. -/
abbrev Args := List (String × Val)

/-- Python dict assignment `d[k] = v`: update in place, else append. -/
def dictSet {α : Type} : List (String × α) → String → α → List (String × α)
  | [], k, v => [(k, v)]
  | (k', v') :: rest, k, v =>
    if k' = k then (k, v) :: rest else (k', v') :: dictSet rest k v

/-- Python `d.get(k)`: first binding of `k`, if any. -/
def dictGet {α : Type} : List (String × α) → String → Option α
  | [], _ => none
  | (k', v') :: rest, k => if k' = k then some v' else dictGet rest k

/-- A row of the task table (`models/task.py` `TaskTable`), as the tool
handlers in `mcp/tools.py` read and write it. -/
structure Task where
  id : String
  user_id : String
  title : String
  description : Option String
  completed : Bool
  created_at : Nat
  completed_at : Option Nat
deriving DecidableEq, Repr

/-- The task store: the rows of the task table in insertion order. -/
abbrev Store := List Task

/-- The per-task dict built by `list_tasks` (it omits `user_id`). -/
structure TaskView where
  id : String
  title : String
  description : Option String
  completed : Bool
  created_at : Nat
  completed_at : Option Nat
deriving DecidableEq, Repr

/-- Projection of a stored row to the dict `list_tasks` returns for it. -/
def taskView (t : Task) : TaskView :=
  { id := t.id, title := t.title, description := t.description,
    completed := t.completed, created_at := t.created_at,
    completed_at := t.completed_at }

/-- The row filter used by `complete_task` / `delete_task` / `update_task`:
`TaskTable.id == task_id, TaskTable.user_id == user_id`. -/
def taskPred (user_id task_id : String) (t : Task) : Bool :=
  t.id = task_id && t.user_id = user_id

/-- Committed in-place update of the first matching row (`.first()` then
field assignment then `session.commit()`). -/
def replaceFirst (p : Task → Bool) (f : Task → Task) : Store → Store
  | [] => []
  | t :: ts => if p t then f t :: ts else t :: replaceFirst p f ts

/-- Committed delete of the first matching row. -/
def removeFirst (p : Task → Bool) : Store → Store
  | [] => []
  | t :: ts => if p t then ts else t :: removeFirst p ts

/-- Return dict of `add_task` in `mcp/tools.py`. -/
structure AddResult where
  task_id : Option String
  title : Option String
  description : Option String
  created_at : Option Nat
  success : Bool
  error : Option String
deriving DecidableEq, Repr

/-- Return dict of `list_tasks` in `mcp/tools.py`. -/
structure ListResult where
  tasks : List TaskView
  count : Nat
  success : Bool
  error : Option String
deriving DecidableEq, Repr

/-- Return dict of `complete_task` in `mcp/tools.py`. -/
structure CompleteResult where
  task_id : String
  title : Option String
  completed : Bool
  completed_at : Option Nat
  success : Bool
  error : Option String
deriving DecidableEq, Repr

/-- Return dict of `delete_task` in `mcp/tools.py`. -/
structure DeleteResult where
  task_id : String
  title : Option String
  deleted : Bool
  success : Bool
  error : Option String
deriving DecidableEq, Repr

/-- Return dict of `update_task` in `mcp/tools.py`. -/
structure UpdateResult where
  task_id : String
  title : Option String
  description : Option String
  updated_at : Option Nat
  success : Bool
  error : Option String
deriving DecidableEq, Repr

/-- Handler `add_task`: insert a fresh uncompleted row and report it. -/
def addTask (user_id title : String) (description : Option String)
    (now : Nat) (freshId : String) (store : Store) : AddResult × Store :=
  let task : Task :=
    { id := freshId, user_id := user_id, title := title,
      description := description, completed := false,
      created_at := now, completed_at := none }
  ({ task_id := some freshId, title := some title, description := description,
     created_at := some now, success := true, error := none },
   store ++ [task])

/-- Handler `list_tasks`: select the caller's rows, optionally dropping
completed ones, in table order. Read-only, so no store is returned. -/
def listTasksH (user_id : String) (include_completed : Bool) (store : Store) :
    ListResult :=
  let sel := store.filter (fun t => t.user_id = user_id && (include_completed || !t.completed))
  { tasks := sel.map taskView, count := sel.length, success := true, error := none }

/-- Handler `complete_task`: mark the caller's row completed, stamping the
completion time; absent row gives the access-denied failure dict. -/
def completeTask (user_id task_id : String) (now : Nat) (store : Store) :
    CompleteResult × Store :=
  match store.find? (taskPred user_id task_id) with
  | none =>
    ({ task_id := task_id, title := none, completed := false,
       completed_at := none, success := false,
       error := some "Task not found or access denied" }, store)
  | some t =>
    ({ task_id := t.id, title := some t.title, completed := true,
       completed_at := some now, success := true, error := none },
     replaceFirst (taskPred user_id task_id)
       (fun u => { u with completed := true, completed_at := some now }) store)

/-- Handler `delete_task`: remove the caller's row; absent row gives the
access-denied failure dict. -/
def deleteTask (user_id task_id : String) (store : Store) :
    DeleteResult × Store :=
  match store.find? (taskPred user_id task_id) with
  | none =>
    ({ task_id := task_id, title := none, deleted := false,
       success := false, error := some "Task not found or access denied" },
     store)
  | some t =>
    ({ task_id := task_id, title := some t.title, deleted := true,
       success := true, error := none },
     removeFirst (taskPred user_id task_id) store)

/-- Field updates performed by `update_task` on a found row:
`if title is not None: ...` and
`if description is not None: task.description = description if description else None`. -/
def applyUpdate (title description : Option String) (t : Task) : Task :=
  let t1 := match title with
    | none => t
    | some s => { t with title := s }
  match description with
  | none => t1
  | some d => { t1 with description := if d = "" then none else some d }

/-- Handler `update_task`: rewrite title/description of the caller's row;
absent row gives the access-denied failure dict. The success dict reports
`created_at` as `updated_at`, as the source does. -/
def updateTask (user_id task_id : String) (title description : Option String)
    (store : Store) : UpdateResult × Store :=
  match store.find? (taskPred user_id task_id) with
  | none =>
    ({ task_id := task_id, title := none, description := none,
       updated_at := none, success := false,
       error := some "Task not found or access denied" }, store)
  | some t =>
    let t' := applyUpdate title description t
    ({ task_id := t'.id, title := some t'.title, description := t'.description,
       updated_at := some t'.created_at, success := true, error := none },
     replaceFirst (taskPred user_id task_id) (applyUpdate title description) store)

/-- A JSON-schema property entry as synthesized by
`SimpleMCPRegistry._get_parameters_from_func`. -/
structure PropEntry where
  type : String
  description : String
deriving DecidableEq, Repr

/-- The nested `properties` dict of a parameter schema. -/
abbrev PropsDict := List (String × PropEntry)

/-- Python type hints occurring on the five tool handlers. -/
inductive PyType where
  | pstr
  | pbool
  | poptStr
deriving DecidableEq, Repr

/-- Embedding of `_get_type_string`: `str` gives "string", `bool` gives
"boolean"; `Optional[str]` has `__origin__` = `Union`, giving "string". -/
def getTypeString : PyType → String
  | .pstr => "string"
  | .pbool => "boolean"
  | .poptStr => "string"

/-- One parameter of a handler signature, as `inspect.signature` reports it. -/
structure ParamSig where
  name : String
  ty : PyType
  hasDefault : Bool
deriving DecidableEq, Repr

/-- The `properties` part built by `_get_parameters_from_func`: one entry per
signature parameter, in order, described as "{name} parameter". -/
def propsFromSig (sig : List ParamSig) : PropsDict :=
  sig.map (fun p => (p.name, { type := getTypeString p.ty, description := p.name ++ " parameter" }))

/-- The `required` part built by `_get_parameters_from_func`: every parameter
declared without a default value, in order. -/
def requiredFromSig (sig : List ParamSig) : List String :=
  (sig.filter (fun p => !p.hasDefault)).map (fun p => p.name)

/-- Identity of one of the five handler functions in `mcp/tools.py`. -/
inductive HandlerTag where
  | addTask
  | listTasks
  | completeTask
  | deleteTask
  | updateTask
deriving DecidableEq, Repr

/-- A registered `Tool` record (the dataclass in `mcp/server.py`). The two
`Nat` fields are heap references to the mutable nested `properties` and
`required` objects of its `parameters` dict; the registry below carries the
heap, so that Python's object aliasing is explicit. -/
structure RegTool where
  name : String
  description : String
  propsRef : Nat
  reqRef : Nat
  handler : HandlerTag
deriving DecidableEq, Repr

/-- The `SimpleMCPRegistry` together with the heap of nested schema objects.
`tools` is the `_tools` dict in insertion order. -/
structure Registry where
  name : String
  instructions : String
  tools : List (String × RegTool)
  propsHeap : List PropsDict
  reqHeap : List (List String)
deriving DecidableEq, Repr

/-- Embedding of the `SimpleMCPRegistry.tool` decorator: build a `Tool`
record whose schema is extracted from the handler signature, and assign it
into `_tools` by plain dict assignment. There is no conflict check of any
kind: an existing name is silently overwritten. Registration allocates the
two fresh nested objects for the new schema. -/
def registerTool (reg : Registry) (toolName description : String)
    (sig : List ParamSig) (h : HandlerTag) : Registry :=
  let pRef := reg.propsHeap.length
  let rRef := reg.reqHeap.length
  { reg with
    tools := dictSet reg.tools toolName
      { name := toolName, description := description,
        propsRef := pRef, reqRef := rRef, handler := h },
    propsHeap := reg.propsHeap ++ [propsFromSig sig],
    reqHeap := reg.reqHeap ++ [requiredFromSig sig] }

/-- Signature of `add_task(user_id: str, title: str, description: Optional[str] = None)`. -/
def addTaskSig : List ParamSig :=
  [⟨"user_id", .pstr, false⟩, ⟨"title", .pstr, false⟩, ⟨"description", .poptStr, true⟩]

/-- Signature of `list_tasks(user_id: str, include_completed: bool = True)`. -/
def listTasksSig : List ParamSig :=
  [⟨"user_id", .pstr, false⟩, ⟨"include_completed", .pbool, true⟩]

/-- Signature of `complete_task(user_id: str, task_id: str)`. -/
def completeTaskSig : List ParamSig :=
  [⟨"user_id", .pstr, false⟩, ⟨"task_id", .pstr, false⟩]

/-- Signature of `delete_task(user_id: str, task_id: str)`. -/
def deleteTaskSig : List ParamSig :=
  [⟨"user_id", .pstr, false⟩, ⟨"task_id", .pstr, false⟩]

/-- Signature of `update_task(user_id: str, task_id: str, title: Optional[str] = None, description: Optional[str] = None)`. -/
def updateTaskSig : List ParamSig :=
  [⟨"user_id", .pstr, false⟩, ⟨"task_id", .pstr, false⟩,
   ⟨"title", .poptStr, true⟩, ⟨"description", .poptStr, true⟩]

/-- Docstring of `add_task` (tool descriptions come from `func.__doc__`;
indentation whitespace is normalized, the text is carried verbatim). -/
def addTaskDoc : String :=
  "Create a new todo task for a user.\n\nUse this when the user requests to create, add, or make a new task.\n\nArgs:\nuser_id: ID of the user who will own the task (UUID string)\ntitle: Task title (short, descriptive name)\ndescription: Optional detailed description\n\nReturns:\nDict with task_id, title, description, created_at, success, error"

/-- Docstring of `list_tasks`. -/
def listTasksDoc : String :=
  "List all tasks for a user.\n\nUse this when the user asks to see, show, or display their tasks.\n\nArgs:\nuser_id: ID of the user whose tasks to list (UUID string)\ninclude_completed: Whether to include completed tasks (default: true)\n\nReturns:\nDict with tasks list, count, success, error"

/-- Docstring of `complete_task`. -/
def completeTaskDoc : String :=
  "Mark a task as completed.\n\nUse this when the user asks to complete, finish, or check off a task.\n\nArgs:\nuser_id: ID of the user who owns the task (UUID string)\ntask_id: ID of the task to mark as complete (UUID string)\n\nReturns:\nDict with task_id, title, completed, completed_at, success, error"

/-- Docstring of `delete_task`. -/
def deleteTaskDoc : String :=
  "Delete a task permanently.\n\nCRITICAL: The task_id parameter must be a valid UUID from the user\x27s existing tasks.\nIf the user provides a task number or title, you MUST map it to the correct task_id.\nExample: If user says \"delete task 1\", find the task with index 0 in their task list and use its ID.\nAlways confirm which task you\x27re deleting by showing the task title before proceeding.\n\nUse this when the user asks to delete, remove, or get rid of a task.\n\nArgs:\nuser_id: ID of the user who owns the task (UUID string)\ntask_id: ID of the task to delete (UUID string) - must match an existing task ID for this user\n\nReturns:\nDict with task_id, title, deleted, success, error"

/-- Docstring of `update_task`. -/
def updateTaskDoc : String :=
  "Update a task\x27s title or description.\n\nCRITICAL: The task_id parameter must be a valid UUID from the user\x27s existing tasks.\nIf the user provides a task number or title, you MUST map it to the correct task_id.\nExample: If user says \"update task 1 to buy milk\", find the task with index 0 in their task list and use its ID.\n\nUse this when the user asks to change, modify, or edit a task.\n\nArgs:\nuser_id: ID of the user who owns the task (UUID string)\ntask_id: ID of the task to update (UUID string) - must match an existing task ID for this user\ntitle: New task title (optional)\ndescription: New task description (optional, empty string to clear)\n\nReturns:\nDict with task_id, title, description, updated_at, success, error"

/-- Embedding of `register_task_tools`: register the five task tools, in
source order, each under its function name with its docstring description. -/
def registerTaskTools (reg : Registry) : Registry :=
  registerTool (registerTool (registerTool (registerTool (registerTool reg
    "add_task" addTaskDoc addTaskSig .addTask)
    "list_tasks" listTasksDoc listTasksSig .listTasks)
    "complete_task" completeTaskDoc completeTaskSig .completeTask)
    "delete_task" deleteTaskDoc deleteTaskSig .deleteTask)
    "update_task" updateTaskDoc updateTaskSig .updateTask

/-- The module-level `SimpleMCPRegistry(...)` instance before any tool is
registered. -/
def emptyRegistry : Registry :=
  { name := "todo-mcp-server",
    instructions := "MCP server for Todo task management operations. Provides tools for creating, listing, completing, deleting, and updating tasks with user isolation.",
    tools := [], propsHeap := [], reqHeap := [] }

/-- The registry as `get_mcp_server()` returns it at application startup:
the global instance with the five task tools registered. -/
def startupRegistry : Registry :=
  registerTaskTools emptyRegistry

/-- Embedding of `SimpleMCPRegistry.get_tool`. -/
def getTool (reg : Registry) (toolName : String) : Option RegTool :=
  dictGet reg.tools toolName

/-- The `parameters` value of an OpenAI function definition produced by
`_get_openai_tools`: the shallow-copied top-level dict, whose nested
`properties` and `required` values are still the registered schema's heap
objects. -/
structure ParamsObj where
  propsRef : Nat
  reqRef : Nat
deriving DecidableEq, Repr

/-- One entry of the tool list handed to the completion provider. -/
structure OpenAIFunction where
  name : String
  description : String
  parameters : ParamsObj
deriving DecidableEq, Repr

/-- One iteration of the loop in `TodoAgent._get_openai_tools`.
`tool.parameters.copy()` is a shallow copy: the fresh top-level dict still
references the registered schema's nested `properties` and `required`
objects, so the `user_id` property assignment writes through to the heap
object the registry's stored schema also references. The `properties` and
`required` keys are always present (set by `_get_parameters_from_func`), so
neither `if`-guard allocates, and nothing is appended to `required`. -/
def convertTool (heap : List PropsDict) (t : RegTool) : OpenAIFunction × List PropsDict :=
  let props := heap.getD t.propsRef []
  let props' := dictSet props "user_id"
    { type := "string", description := "User ID for data isolation (auto-filled, do not ask user)" }
  (⟨t.name, t.description, ⟨t.propsRef, t.reqRef⟩⟩, heap.set t.propsRef props')

/-- Conversion of a list of registered tools, threading the mutated heap. -/
def convertTools (heap : List PropsDict) : List RegTool → List OpenAIFunction × List PropsDict
  | [] => ([], heap)
  | t :: ts =>
    let (f, heap') := convertTool heap t
    let (fs, heap'') := convertTools heap' ts
    (f :: fs, heap'')

/-- Embedding of `TodoAgent._get_openai_tools`: convert every registered
tool in registration order; the returned registry carries the heap as the
conversion left it. -/
def getOpenaiTools (reg : Registry) : List OpenAIFunction × Registry :=
  let p := convertTools reg.propsHeap (reg.tools.map (fun kv => kv.2))
  (p.1, { reg with propsHeap := p.2 })

/-- The `properties` dict of a converted tool as the completion provider
receives it (nested objects are resolved against the heap at send time). -/
def deliveredProps (reg : Registry) (f : OpenAIFunction) : PropsDict :=
  reg.propsHeap.getD f.parameters.propsRef []

/-- The `required` list of a converted tool as the completion provider
receives it. -/
def deliveredRequired (reg : Registry) (f : OpenAIFunction) : List String :=
  reg.reqHeap.getD f.parameters.reqRef []

/-- The `properties` dict currently stored for a registered tool. -/
def storedProps (reg : Registry) (toolName : String) : PropsDict :=
  match getTool reg toolName with
  | some t => reg.propsHeap.getD t.propsRef []
  | none => []

/-- Required `str` parameter binding for a handler call: the payload must
carry a string under the key. A missing or non-string value is modelled as a
binding failure (Python raises a `TypeError` on a missing argument; a
mistyped value is merged into the same failure path, which no claim
exercises). -/
def reqStrArg (args : Args) (k : String) : Option String :=
  match dictGet args k with
  | some (Val.str s) => some s
  | _ => none

/-- Binding for an `Optional[str]` parameter: absent or JSON null is Python
`None`; a string is itself; a boolean is a mistyped value, modelled as a
binding failure. -/
def optStrArg (args : Args) (k : String) : Option (Option String) :=
  match dictGet args k with
  | none => some none
  | some Val.null => some none
  | some (Val.str s) => some (some s)
  | some (Val.bool _) => none

/-- Binding for `include_completed`: defaulted when absent, otherwise the
handler only ever uses the value's truthiness (`if not include_completed`). -/
def truthyArgD (args : Args) (k : String) (dflt : Bool) : Bool :=
  match dictGet args k with
  | none => dflt
  | some v => pyTruthy v

/-- Python `task_id not in valid_task_ids` (negated): a payload value equals
a member of a list of id strings only if it is that string. -/
def valIsId (v : Val) (ids : List String) : Bool :=
  match v with
  | .str s => ids.contains s
  | _ => false

/-- Python `function_name.replace("_", " ")` (the two patterns are single
characters, so substring replacement is a character map). -/
def underscoreToSpace (s : String) : String :=
  String.mk (s.data.map (fun c => if c = '_' then ' ' else c))

/-- Python rendering of a possibly-`None` string in an f-string. -/
def pyOptStr (o : Option String) : String :=
  o.getD "None"

/-- Lines "Task {i+1}: {title}" of the ownership-guard error listing. -/
def guardTaskLines : Nat → List TaskView → List String
  | _, [] => []
  | i, t :: ts => ("Task " ++ toString i ++ ": " ++ t.title) :: guardTaskLines (i + 1) ts

/-- The guard's task-not-found error text, carrying a freshly enumerated
listing of the caller's tasks. -/
def notFoundMessage (toolName : String) (tasks : List TaskView) : String :=
  "Error: Task not found. Here are your current tasks:\n" ++ joinNl (guardTaskLines 1 tasks) ++ "\n\nPlease specify which task you\x27d like to " ++ underscoreToSpace toolName ++ "."

/-- Lines "{i+1}. {title}" (plus a check mark when completed) of the
`list_tasks` result formatting. -/
def listLines : Nat → List TaskView → List String
  | _, [] => []
  | i, t :: ts =>
    (toString i ++ ". " ++ t.title ++ (if t.completed then " ✓" else "")) :: listLines (i + 1) ts

/-- Stand-in for the message of the outer `except` in `_execute_tool_call`
when handler-argument binding fails ("Error executing {name}: {str(e)}"; the
`TypeError` detail text is abbreviated, no claim depends on it). -/
def bindFailure (toolName : String) : String :=
  "Error executing " ++ toolName ++ ": invalid arguments"

/-- Handler invocation `await tool.handler(**function_args)` followed by the
per-tool result formatting of `_execute_tool_call` (in the startup registry
each handler sits under its own function name, so the source's
`function_name` formatting branches pair with the matching handler). -/
def runTool (tag : HandlerTag) (toolName : String) (args : Args) (now : Nat)
    (freshId : String) (store : Store) : String × Store :=
  match tag with
  | .addTask =>
    match reqStrArg args "user_id", reqStrArg args "title", optStrArg args "description" with
    | some uid, some title, some desc =>
      let p := addTask uid title desc now freshId store
      (if p.1.success then
        "✓ Task \x27" ++ pyOptStr p.1.title ++ "\x27 created successfully!"
      else "Error: " ++ (p.1.error.getD "Unknown error"), p.2)
    | _, _, _ => (bindFailure toolName, store)
  | .listTasks =>
    match reqStrArg args "user_id" with
    | some uid =>
      let res := listTasksH uid (truthyArgD args "include_completed" true) store
      (if res.success then
        if res.count = 0 then
          "You don\x27t have any tasks yet."
        else
          "You have " ++ toString res.count ++ " task(s):\n" ++ joinNl (listLines 1 res.tasks) ++ "\n\nYou can refer to tasks by number (e.g., \"complete task 1\")"
      else "Error: " ++ (res.error.getD "Unknown error"), store)
    | none => (bindFailure toolName, store)
  | .completeTask =>
    match reqStrArg args "user_id", reqStrArg args "task_id" with
    | some uid, some tid =>
      let p := completeTask uid tid now store
      (if p.1.success then
        "✓ Task \x27" ++ pyOptStr p.1.title ++ "\x27 marked as complete!"
      else "Error: " ++ (p.1.error.getD "Unknown error"), p.2)
    | _, _ => (bindFailure toolName, store)
  | .deleteTask =>
    match reqStrArg args "user_id", reqStrArg args "task_id" with
    | some uid, some tid =>
      let p := deleteTask uid tid store
      (if p.1.success then
        "✓ Task \x27" ++ pyOptStr p.1.title ++ "\x27 deleted."
      else "Error: " ++ (p.1.error.getD "Unknown error"), p.2)
    | _, _ => (bindFailure toolName, store)
  | .updateTask =>
    match reqStrArg args "user_id", reqStrArg args "task_id",
          optStrArg args "title", optStrArg args "description" with
    | some uid, some tid, some ti, some de =>
      let p := updateTask uid tid ti de store
      (if p.1.success then
        "✓ Task updated successfully!"
      else "Error: " ++ (p.1.error.getD "Unknown error"), p.2)
    | _, _, _, _ => (bindFailure toolName, store)

/-- The data-isolation injection of `_execute_tool_call`:
`function_args["user_id"] = str(self.user_id)` before anything else runs. -/
def argsForHandler (caller : String) (rawArgs : Args) : Args :=
  dictSet rawArgs "user_id" (Val.str caller)

/-- Body of `_execute_tool_call` after the `user_id` injection: tool lookup,
the ownership guard for the three mutating tools (entered only when the
payload carries a truthy `task_id`), and handler dispatch. -/
def executeCore (caller toolName : String) (args : Args) (now : Nat)
    (freshId : String) (store : Store) : String × Store :=
  match getTool startupRegistry toolName with
  | none => ("Error: Tool \x27" ++ toolName ++ "\x27 not found", store)
  | some t =>
    let taskIdVal := (dictGet args "task_id").getD Val.null
    if (toolName = "update_task" || toolName = "delete_task" || toolName = "complete_task")
        && pyTruthy taskIdVal then
      let tasksResult := listTasksH caller true store
      if !(valIsId taskIdVal (tasksResult.tasks.map (fun v => v.id))) then
        if !tasksResult.tasks.isEmpty then
          (notFoundMessage toolName tasksResult.tasks, store)
        else
          ("Error: You don\x27t have any tasks yet. Create some tasks first!", store)
      else
        runTool t.handler toolName args now freshId store
    else
      runTool t.handler toolName args now freshId store

/-- Embedding of `TodoAgent._execute_tool_call` for the authenticated caller:
inject the caller's id over whatever the model supplied, then run the guarded
dispatch. Returns the tool-outcome text and the store after the call. -/
def executeToolCall (caller toolName : String) (rawArgs : Args) (now : Nat)
    (freshId : String) (store : Store) : String × Store :=
  executeCore caller toolName (argsForHandler caller rawArgs) now freshId store

/-- Connectivity-marker test of the error classifier
(`"Connection" in error_msg or "connect" in error_msg.lower()`). -/
def connCond (msg : String) : Bool :=
  strContains msg "Connection" || strContains (pyLower msg) "connect"

/-- Authentication-marker test
(`"401" in error_msg or "Unauthorized" in error_msg or "authentication" in error_msg.lower()`). -/
def authCond (msg : String) : Bool :=
  strContains msg "401" || strContains msg "Unauthorized" || strContains (pyLower msg) "authentication"

/-- Rate-limit-marker test
(`"rate" in error_msg.lower() or "limit" in error_msg.lower()`). -/
def rateCond (msg : String) : Bool :=
  strContains (pyLower msg) "rate" || strContains (pyLower msg) "limit"

/-- The fixed connectivity-failure sentence. -/
def connSentence : String :=
  "I\x27m having trouble connecting to my AI service. Please check if the OpenAI API key is configured correctly in Railway environment variables."

/-- The fixed authentication-failure sentence. -/
def authSentence : String :=
  "My AI service credentials are invalid. Please check the OpenAI API key in Railway environment variables."

/-- The fixed rate-limit sentence. -/
def rateSentence : String :=
  "I\x27ve reached my rate limit. Please try again in a moment."

/-- Embedding of the `except` branch of `process_message`: classify a
completion-provider exception by its type name and message and produce the
turn's entire response text. -/
def classifyError (errorType errorMsg : String) : String :=
  if connCond errorMsg then connSentence
  else if authCond errorMsg then authSentence
  else if rateCond errorMsg then rateSentence
  else "I encountered an error (" ++ errorType ++ "): " ++ errorMsg

/-- The agent's system prompt (`TodoAgent.SYSTEM_PROMPT`, verbatim). -/
def SYSTEM_PROMPT : String :=
  "You are a helpful task management assistant for TaskFlow. Your role is to help users manage their todo tasks through natural language.\n\nKey behaviors:\n- Be friendly and concise in your responses\n- Focus on helping users create, view, complete, and delete tasks\n- When users ask to add tasks, extract the task title and any description\n- When users ask to see tasks, list their tasks clearly with numbers for easy reference\n- When users ask to complete/delete/update tasks, ALWAYS call list_tasks FIRST to identify the task\n- Users may refer to tasks by number (e.g., \"first task\", \"task 2\") or by title/content\n- Use the available tools to perform all task operations\n- Never make up task information - always use the tools\n- The user_id parameter is automatically injected - do NOT ask the user for it\n\nTask identification workflow:\n1. When user wants to update/delete/complete a task, FIRST call list_tasks\n2. Show the user the tasks with numbers: \"1. Task title\", \"2. Task title\", etc.\n3. If user specified a number or title, match it to get the task_id\n4. Then call the appropriate tool (update_task, delete_task, complete_task) with the task_id\n\nAvailable tools:\n- add_task: Create a new task with title and optional description\n- list_tasks: Show all tasks with their IDs (call this FIRST before update/delete/complete)\n- complete_task: Mark a task as completed (requires task_id from list_tasks)\n- delete_task: Remove a task permanently (requires task_id from list_tasks)\n- update_task: Change a task\x27s title or description (requires task_id from list_tasks)\n\nNote: user_id is automatically provided for all tool calls. Never ask the user for their user ID."

/-- The fixed mutation-intent keyword list of `process_message`. -/
def updateDeleteKeywords : List String :=
  ["update", "delete", "remove", "change", "modify", "complete", "finish", "mark"]

/-- The preload test: some keyword occurs in the lowercased user message. -/
def needsTaskList (userMessage : String) : Bool :=
  updateDeleteKeywords.any (fun k => strContains (pyLower userMessage) k)

/-- Python rendering of a bool in an f-string. -/
def pyBoolStr (b : Bool) : String :=
  if b then "True" else "False"

/-- Lines "Task {i+1}: ID={id}, Title='{title}', Completed={completed}" of
the preloaded task context. -/
def ctxTaskLines : Nat → List TaskView → List String
  | _, [] => []
  | i, t :: ts =>
    ("Task " ++ toString i ++ ": ID=" ++ t.id ++ ", Title=\x27" ++ t.title ++ "\x27, Completed=" ++ pyBoolStr t.completed) :: ctxTaskLines (i + 1) ts

/-- The addendum appended to the system prompt by the context preloader. -/
def ctxAddendum (tasks : List TaskView) : String :=
  "\n\nCURRENT USER TASKS:\n" ++ joinNl (ctxTaskLines 1 tasks) ++ "\n\nWhen user refers to a task by number or title, use the corresponding ID from this list."

/-- The system-prompt text `process_message` actually sends: the preload
block replaces `messages[0]` exactly when the keyword test succeeds, the
`list_tasks` tool is registered, and the (always successful) listing of the
caller's full task set is non-empty. -/
def effectiveSystemPrompt (caller userMessage : String) (store : Store) : String :=
  if needsTaskList userMessage then
    if (getTool startupRegistry "list_tasks").isSome then
      let res := listTasksH caller true store
      if res.success && !res.tasks.isEmpty then SYSTEM_PROMPT ++ ctxAddendum res.tasks
      else SYSTEM_PROMPT
    else SYSTEM_PROMPT
  else SYSTEM_PROMPT

/-- One tool invocation requested by the completion provider, with its
correlation id and its JSON argument payload already parsed. -/
structure ToolCall where
  id : String
  name : String
  args : Args
deriving DecidableEq, Repr

/-- A role-tagged message of the conversation being assembled. -/
inductive Msg where
  | system (content : String)
  | user (content : String)
  | assistant (content : String) (toolCalls : List ToolCall)
  | tool (callId : String) (content : String)
deriving DecidableEq, Repr

/-- A completion-provider reply: optional text plus requested invocations. -/
structure Reply where
  content : Option String
  toolCalls : List ToolCall
deriving DecidableEq, Repr

/-- Observable steps of a turn: each completion-provider call (with the exact
message list sent and whether the tool catalog accompanied it) and each tool
execution, in order. -/
inductive Event where
  | completion (messages : List Msg) (withTools : Bool)
  | toolExec (callId : String) (toolName : String)
deriving DecidableEq, Repr

/-- What one turn of `process_message` produces: the yielded response texts,
the ordered event trace, and the task store after the turn. -/
structure TurnResult where
  yields : List String
  trace : List Event
  finalStore : Store
deriving Repr

/-- The tool round of `process_message`: execute the requested invocations
sequentially in the order received, threading the store, and collect one
tool-outcome message per invocation carrying its correlation id. Fresh row
ids for `add_task` are supplied per position. -/
def toolRound (caller : String) (now : Nat) (freshIds : Nat → String) :
    List ToolCall → Nat → Store → List Msg × List Event × Store
  | [], _, store => ([], [], store)
  | c :: cs, i, store =>
    let p := executeToolCall caller c.name c.args now (freshIds i) store
    let rest := toolRound caller now freshIds cs (i + 1) p.2
    (Msg.tool c.id p.1 :: rest.1, Event.toolExec c.id c.name :: rest.2.1, rest.2.2)

/-- The neutral fallback of the no-tools, no-text branch. -/
def fallbackText : String :=
  "I understand. How can I help you with your tasks?"

/-- Embedding of `TodoAgent.process_message` (the non-raising path). The two
completion-provider replies are oracle inputs, since the provider is
external: `firstReply` answers the first call, `followUpContent` the
follow-up call when one is made. The trace records each provider call with
the exact message list sent and every tool execution, in order. -/
def processMessage (caller userMessage : String) (history : List Msg)
    (store : Store) (firstReply : Reply) (followUpContent : Option String)
    (now : Nat) (freshIds : Nat → String) : TurnResult :=
  let messages := Msg.system (effectiveSystemPrompt caller userMessage store) :: (history ++ [Msg.user userMessage])
  if !firstReply.toolCalls.isEmpty then
    let r := toolRound caller now freshIds firstReply.toolCalls 0 store
    let messages2 := messages ++ [Msg.assistant (firstReply.content.getD "") firstReply.toolCalls] ++ r.1
    { yields :=
        match followUpContent with
        | some s => if s = "" then [] else [s]
        | none => [],
      trace := Event.completion messages true :: (r.2.1 ++ [Event.completion messages2 false]),
      finalStore := r.2.2 }
  else
    { yields :=
        match firstReply.content with
        | some s => if s = "" then [fallbackText] else [s]
        | none => [fallbackText],
      trace := [Event.completion messages true],
      finalStore := store }

/-- The correlation id a message echoes back, when it is a tool-outcome
message. -/
def msgCallId : Msg → Option String
  | .tool cid _ => some cid
  | _ => none

/-! Helper lemmas about the Python-semantics primitives. -/

theorem strData_append (s t : String) : (s ++ t).data = s.data ++ t.data := by
  cases s
  cases t
  rfl

theorem matchesFront_append (l r pat : List Char) (h : matchesFront l pat = true) :
    matchesFront (l ++ r) pat = true := by
  induction l generalizing pat with
  | nil =>
    cases pat with
    | nil => simp [matchesFront]
    | cons b bs => simp [matchesFront] at h
  | cons a as ih =>
    cases pat with
    | nil => simp [matchesFront]
    | cons b bs =>
      simp [matchesFront] at h ⊢
      exact ⟨h.1, ih bs h.2⟩

theorem occursIn_nil (l : List Char) : occursIn l [] = true := by
  cases l with
  | nil => simp [occursIn]
  | cons a as => simp [occursIn, matchesFront]

theorem occursIn_append_left (l r pat : List Char) (h : occursIn l pat = true) :
    occursIn (l ++ r) pat = true := by
  induction l with
  | nil =>
    have hp : pat = [] := by simpa [occursIn, List.isEmpty_iff] using h
    subst hp
    exact occursIn_nil r
  | cons a as ih =>
    simp [occursIn] at h ⊢
    rcases h with h | h
    · exact Or.inl (matchesFront_append (a :: as) r pat h)
    · exact Or.inr (ih h)

theorem occursIn_append_right (l r pat : List Char) (h : occursIn r pat = true) :
    occursIn (l ++ r) pat = true := by
  induction l with
  | nil => simpa using h
  | cons a as ih =>
    simp [occursIn] at ih ⊢
    exact Or.inr ih

theorem matchesFront_self (l : List Char) : matchesFront l l = true := by
  induction l with
  | nil => simp [matchesFront]
  | cons a as ih => simp [matchesFront, ih]

theorem occursIn_self (l : List Char) : occursIn l l = true := by
  cases l with
  | nil => simp [occursIn]
  | cons a as => simp [occursIn, matchesFront_self]

theorem strContains_append_left (s t sub : String) (h : strContains s sub = true) :
    strContains (s ++ t) sub = true := by
  unfold strContains at h ⊢
  rw [strData_append]
  exact occursIn_append_left _ _ _ h

theorem strContains_append_right (s t sub : String) (h : strContains t sub = true) :
    strContains (s ++ t) sub = true := by
  unfold strContains at h ⊢
  rw [strData_append]
  exact occursIn_append_right _ _ _ h

theorem strContains_refl (s : String) : strContains s s = true :=
  occursIn_self s.data

theorem str_append_ne (a b : String) (h : 0 < b.length) : a ++ b ≠ a := by
  intro he
  have hlen := congrArg String.length he
  rw [String.length_append] at hlen
  omega

theorem joinNl_contains_of_mem (lines : List String) (s : String)
    (h : ∃ l ∈ lines, strContains l s = true) : strContains (joinNl lines) s = true := by
  induction lines with
  | nil => simp at h
  | cons x rest ih =>
    rcases h with ⟨l, hl, hc⟩
    cases rest with
    | nil =>
      simp at hl
      subst hl
      simpa [joinNl] using hc
    | cons y ys =>
      simp at hl
      rcases hl with hl | hl
      · subst hl
        show strContains (l ++ "\n" ++ joinNl (y :: ys)) s = true
        exact strContains_append_left _ _ _ (strContains_append_left _ _ _ hc)
      · show strContains (x ++ "\n" ++ joinNl (y :: ys)) s = true
        exact strContains_append_right _ _ _ (ih ⟨l, by simpa using hl, hc⟩)

theorem guardTaskLines_mem (tasks : List TaskView) (t : TaskView) (h : t ∈ tasks) :
    ∀ i : Nat, ∃ l ∈ guardTaskLines i tasks, strContains l t.title = true := by
  induction tasks with
  | nil => simp at h
  | cons x rest ih =>
    intro i
    rcases List.mem_cons.mp h with hx | hx
    · subst hx
      exact ⟨"Task " ++ toString i ++ ": " ++ t.title, by simp [guardTaskLines],
        strContains_append_right _ _ _ (strContains_refl _)⟩
    · rcases ih hx (i + 1) with ⟨l, hl, hc⟩
      exact ⟨l, by simp [guardTaskLines]; exact Or.inr hl, hc⟩

theorem dictGet_dictSet_self {α : Type} (l : List (String × α)) (k : String) (v : α) :
    dictGet (dictSet l k v) k = some v := by
  induction l with
  | nil => simp [dictGet, dictSet]
  | cons kv rest ih =>
    by_cases hk : kv.1 = k
    · simp [dictSet, dictGet, hk]
    · simp [dictSet, dictGet, hk, ih]

theorem dictGet_dictSet_ne {α : Type} (l : List (String × α)) (k k' : String) (v : α)
    (h : k' ≠ k) : dictGet (dictSet l k v) k' = dictGet l k' := by
  induction l with
  | nil =>
    simp only [dictSet, dictGet]
    rw [if_neg (fun hc => h hc.symm)]
  | cons kv rest ih =>
    obtain ⟨k0, v0⟩ := kv
    by_cases hk : k0 = k
    · subst hk
      simp only [dictSet, if_pos rfl, dictGet]
      rw [if_neg (fun hc => h hc.symm), if_neg (fun hc => h hc.symm)]
    · simp only [dictSet, if_neg hk, dictGet]
      by_cases hk' : k0 = k'
      · simp [hk']
      · simp [hk', ih]

theorem dictSet_dictSet_same {α : Type} (l : List (String × α)) (k : String) (v w : α) :
    dictSet (dictSet l k v) k w = dictSet l k w := by
  induction l with
  | nil => simp [dictSet]
  | cons kv rest ih =>
    by_cases hk : kv.1 = k
    · simp [dictSet, hk]
    · simp [dictSet, hk, ih]

theorem find?_replaceFirst (p : Task → Bool) (f : Task → Task) (l : Store)
    (hpf : ∀ t, p (f t) = p t) :
    (replaceFirst p f l).find? p = (l.find? p).map f := by
  induction l with
  | nil => simp [replaceFirst]
  | cons t ts ih =>
    by_cases hp : p t = true
    · simp [replaceFirst, hp, List.find?_cons_of_pos, hpf t]
    · have hp' : p t = false := by simpa using hp
      simp [replaceFirst, hp', List.find?_cons_of_neg, ih]

theorem taskPred_applyUpdate (uid tid : String) (ti de : Option String) (t : Task) :
    taskPred uid tid (applyUpdate ti de t) = taskPred uid tid t := by
  cases ti <;> cases de <;> simp [applyUpdate, taskPred]

theorem toolRound_events (caller : String) (now : Nat) (freshIds : Nat → String)
    (cs : List ToolCall) : ∀ (i : Nat) (store : Store),
    (toolRound caller now freshIds cs i store).2.1
      = cs.map (fun c => Event.toolExec c.id c.name) := by
  induction cs with
  | nil => intro i store; rfl
  | cons c rest ih =>
    intro i store
    simp [toolRound, ih]

theorem toolRound_msg_ids (caller : String) (now : Nat) (freshIds : Nat → String)
    (cs : List ToolCall) : ∀ (i : Nat) (store : Store),
    ((toolRound caller now freshIds cs i store).1).map msgCallId
      = cs.map (fun c => some c.id) := by
  induction cs with
  | nil => intro i store; rfl
  | cons c rest ih =>
    intro i store
    simp [toolRound, msgCallId, ih]

/-! Claim theorems. -/

/-- Claim C1 (confirmed): every tool invocation executed by
`_execute_tool_call`, regardless of the tool named, has `user_id` force-set
to the authenticated caller's id before anything runs: the argument dict
handed to the handler carries the caller's id under `user_id`, and the whole
outcome of the invocation is unchanged if the model-supplied payload carried
any `user_id` value of its own — that value is discarded and overwritten. -/
theorem c1_user_id_forced_to_caller (caller toolName : String) (rawArgs : Args)
    (now : Nat) (freshId : String) (store : Store) (v : Val) :
    dictGet (argsForHandler caller rawArgs) "user_id" = some (Val.str caller)
    ∧ executeToolCall caller toolName (dictSet rawArgs "user_id" v) now freshId store
        = executeToolCall caller toolName rawArgs now freshId store := by
  refine ⟨dictGet_dictSet_self rawArgs "user_id" (Val.str caller), ?_⟩
  unfold executeToolCall argsForHandler
  rw [dictSet_dictSet_same]

/-- Claim C3 (code bug evidence): in the tool list handed to the completion
provider, every schema's properties contain `user_id` (the claim's true
half) — but `user_id` also sits in every schema's required list, since
`_get_parameters_from_func` collects it from each handler signature (where it
has no default) and `_get_openai_tools` only refrains from adding it again,
never removes it. This contradicts the claim and the source's own comments
("user_id is auto-filled and should NOT be in required parameters"). -/
theorem c3_user_id_in_every_required_list :
    ((getOpenaiTools startupRegistry).1.map (fun f =>
        deliveredRequired (getOpenaiTools startupRegistry).2 f))
      = [["user_id", "title"], ["user_id"], ["user_id", "task_id"],
         ["user_id", "task_id"], ["user_id", "task_id"]]
    ∧ ((getOpenaiTools startupRegistry).1.all (fun f =>
        ((deliveredProps (getOpenaiTools startupRegistry).2 f).map (fun kv => kv.1)).contains "user_id")) = true := by
  constructor
  · rfl
  · rfl

/-- Claim C4 counterexample: registering a second tool under an existing name
does not fail — `registerTool`, the embedding of the `tool` decorator, is a
total function with no error outcome of any kind (no ConflictError exists in
the source) — and the previously stored definition is replaced. -/
theorem c4_counterexample_silent_overwrite :
    (getTool (registerTool (registerTool emptyRegistry "t" "first" [] HandlerTag.addTask)
        "t" "second" [] HandlerTag.addTask) "t").map (fun u => u.description) = some "second"
    ∧ (registerTool (registerTool emptyRegistry "t" "first" [] HandlerTag.addTask)
        "t" "second" [] HandlerTag.addTask).tools.length = 1 := by
  constructor
  · rfl
  · rfl

/-- Claim C4 amended: registering a tool under a name that already exists in
the registry silently replaces the existing definition (plain dict
assignment); no error is raised and no conflict check exists. -/
theorem c4_duplicate_registration_replaces (reg : Registry) (n d1 d2 : String)
    (s1 s2 : List ParamSig) (h1 h2 : HandlerTag) :
    (getTool (registerTool (registerTool reg n d1 s1 h1) n d2 s2 h2) n).map
      (fun u => (u.description, u.handler)) = some (d2, h2) := by
  unfold getTool registerTool
  simp [dictGet_dictSet_self]

/-- Claim C6 amended: a completion-provider exception is classified by
inspecting its message for connectivity, authentication, then rate-limit
markers, each mapped to one fixed sentence; an unmatched exception maps to a
generic sentence that includes the exception's type name AND its full
message (the source interpolates `str(e)` verbatim, so the "never its full
internal detail" part of the original claim is false). -/
theorem c6_error_classification (t m : String) :
    (connCond m = true → classifyError t m = connSentence)
    ∧ (connCond m = false → authCond m = true → classifyError t m = authSentence)
    ∧ (connCond m = false → authCond m = false → rateCond m = true →
        classifyError t m = rateSentence)
    ∧ (connCond m = false → authCond m = false → rateCond m = false →
        classifyError t m = "I encountered an error (" ++ t ++ "): " ++ m
        ∧ strContains (classifyError t m) t = true
        ∧ strContains (classifyError t m) m = true) := by
  refine ⟨?_, ?_, ?_, ?_⟩
  · intro h1
    simp [classifyError, h1]
  · intro h1 h2
    simp [classifyError, h1, h2]
  · intro h1 h2 h3
    simp [classifyError, h1, h2, h3]
  · intro h1 h2 h3
    have he : classifyError t m = "I encountered an error (" ++ t ++ "): " ++ m := by
      simp [classifyError, h1, h2, h3]
    refine ⟨he, ?_, ?_⟩
    · rw [he]
      exact strContains_append_left _ _ _
        (strContains_append_left _ _ _ (strContains_append_right _ _ _ (strContains_refl t)))
    · rw [he]
      exact strContains_append_right _ _ _ (strContains_refl m)

/-- Witness for `c6_error_classification`: a concrete unmatched exception
takes the generic branch. -/
theorem c6_error_classification_witness :
    classifyError "TypeError" "boom" = "I encountered an error (" ++ "TypeError" ++ "): " ++ "boom" :=
  ((c6_error_classification "TypeError" "boom").2.2.2 (by decide) (by decide) (by decide)).1

/-- Claim C6 counterexample: for a concrete unmatched exception the produced
sentence contains the exception's full message — the claim's "never its full
internal detail" fails on the code. -/
theorem c6_counterexample_full_detail_leaks :
    classifyError "ValueError" "xyz private detail"
      = "I encountered an error (ValueError): xyz private detail"
    ∧ strContains (classifyError "ValueError" "xyz private detail") "xyz private detail" = true := by
  constructor
  · rfl
  · decide

/-- Claim C9 (code bug evidence): converting the registered tools to the
provider format mutates the registry's stored state, despite the source's
"Copy to avoid mutation" comment: `parameters.copy()` is shallow, so
assigning the `user_id` property rewrites the nested `properties` object
that the stored schema still references. After one conversion the stored
`add_task` schema's `user_id` entry has changed. -/
theorem c9_conversion_mutates_stored_schema :
    dictGet (storedProps startupRegistry "add_task") "user_id"
        = some { type := "string", description := "user_id parameter" }
    ∧ dictGet (storedProps (getOpenaiTools startupRegistry).2 "add_task") "user_id"
        = some { type := "string", description := "User ID for data isolation (auto-filled, do not ask user)" }
    ∧ storedProps (getOpenaiTools startupRegistry).2 "add_task"
        ≠ storedProps startupRegistry "add_task" := by
  refine ⟨rfl, rfl, ?_⟩
  decide

theorem isEmpty_false_of_ne_nil {α : Type} {l : List α} (h : l ≠ []) : l.isEmpty = false := by
  cases l with
  | nil => exact absurd rfl h
  | cons a as => rfl

theorem listTasksH_success (u : String) (c : Bool) (s : Store) :
    (listTasksH u c s).success = true := rfl

theorem ctxAddendum_length_pos (tasks : List TaskView) : 0 < (ctxAddendum tasks).length := by
  unfold ctxAddendum
  rw [String.length_append, String.length_append]
  have h : 0 < ("\n\nCURRENT USER TASKS:\n" : String).length := by decide
  omega

/-- Claim C2 amended: for a mutating-tool invocation whose payload carries a
non-empty task identifier that is not among the caller's current tasks, and
whose caller's task set is non-empty, `_execute_tool_call` returns the
task-not-found error text carrying a freshly enumerated listing of the
caller's tasks (every current title occurs in it), and leaves the store
untouched. (When the caller's task set is empty the code instead answers
"You don\x27t have any tasks yet", with no "not found" wording — see the
counterexample — and an empty-string identifier skips the guard entirely
because Python tests the identifier's truthiness.) -/
theorem c2_unowned_id_failure_with_listing
    (caller toolName tid : String) (rawArgs : Args) (now : Nat) (freshId : String)
    (store : Store)
    (hname : toolName = "update_task" ∨ toolName = "delete_task" ∨ toolName = "complete_task")
    (harg : dictGet rawArgs "task_id" = some (Val.str tid))
    (htid : tid ≠ "")
    (hnotmem : ((listTasksH caller true store).tasks.map (fun v => v.id)).contains tid = false)
    (hnonempty : (listTasksH caller true store).tasks ≠ []) :
    executeToolCall caller toolName rawArgs now freshId store
      = (notFoundMessage toolName (listTasksH caller true store).tasks, store)
    ∧ strContains (notFoundMessage toolName (listTasksH caller true store).tasks) "Task not found" = true
    ∧ ∀ t ∈ (listTasksH caller true store).tasks,
        strContains (notFoundMessage toolName (listTasksH caller true store).tasks) t.title = true := by
  have hargs : dictGet (argsForHandler caller rawArgs) "task_id" = some (Val.str tid) := by
    unfold argsForHandler
    rw [dictGet_dictSet_ne rawArgs "user_id" "task_id" (Val.str caller) (by decide)]
    exact harg
  have hE : (listTasksH caller true store).tasks.isEmpty = false :=
    isEmpty_false_of_ne_nil hnonempty
  have hnm : ∀ x ∈ (listTasksH caller true store).tasks, ¬ x.id = tid := by
    intro x hx heq
    have hmem : tid ∈ (listTasksH caller true store).tasks.map (fun v => v.id) :=
      List.mem_map.mpr ⟨x, hx, heq⟩
    have hout : tid ∉ (listTasksH caller true store).tasks.map (fun v => v.id) := by
      simpa using hnotmem
    exact hout hmem
  refine ⟨?_, ?_, ?_⟩
  · unfold executeToolCall
    rcases hname with h | h | h
    · subst h
      obtain ⟨u, hu⟩ : ∃ u, getTool startupRegistry "update_task" = some u := ⟨_, rfl⟩
      unfold executeCore
      rw [hu, hargs]
      simp only [Option.getD_some, valIsId, pyTruthy]
      simp [htid, hE]
      intro x hx heq
      exact absurd heq (hnm x hx)
    · subst h
      obtain ⟨u, hu⟩ : ∃ u, getTool startupRegistry "delete_task" = some u := ⟨_, rfl⟩
      unfold executeCore
      rw [hu, hargs]
      simp only [Option.getD_some, valIsId, pyTruthy]
      simp [htid, hE]
      intro x hx heq
      exact absurd heq (hnm x hx)
    · subst h
      obtain ⟨u, hu⟩ : ∃ u, getTool startupRegistry "complete_task" = some u := ⟨_, rfl⟩
      unfold executeCore
      rw [hu, hargs]
      simp only [Option.getD_some, valIsId, pyTruthy]
      simp [htid, hE]
      intro x hx heq
      exact absurd heq (hnm x hx)
  · unfold notFoundMessage
    exact strContains_append_left _ _ _ (strContains_append_left _ _ _
      (strContains_append_left _ _ _ (strContains_append_left _ _ _ (by decide))))
  · intro t ht
    have hj : strContains (joinNl (guardTaskLines 1 (listTasksH caller true store).tasks)) t.title = true :=
      joinNl_contains_of_mem _ _ (guardTaskLines_mem _ t ht 1)
    unfold notFoundMessage
    exact strContains_append_left _ _ _ (strContains_append_left _ _ _
      (strContains_append_left _ _ _ (strContains_append_right _ _ _ hj)))

/-- Witness for `c2_unowned_id_failure_with_listing`: deleting the unknown id
"B" while owning only task "A" titled "x" gives the guard failure and leaves
the store unchanged. -/
theorem c2_unowned_id_failure_with_listing_witness :
    executeToolCall "u" "delete_task" [("task_id", Val.str "B")] 0 "f"
        [{ id := "A", user_id := "u", title := "x", description := none,
           completed := false, created_at := 0, completed_at := none }]
      = (notFoundMessage "delete_task"
           (listTasksH "u" true
             [{ id := "A", user_id := "u", title := "x", description := none,
                completed := false, created_at := 0, completed_at := none }]).tasks,
         [{ id := "A", user_id := "u", title := "x", description := none,
            completed := false, created_at := 0, completed_at := none }]) :=
  (c2_unowned_id_failure_with_listing "u" "delete_task" "B" [("task_id", Val.str "B")] 0 "f"
    [{ id := "A", user_id := "u", title := "x", description := none,
       completed := false, created_at := 0, completed_at := none }]
    (Or.inr (Or.inl rfl)) rfl (by decide) (by decide) (by decide)).1

/-- Claim C2 counterexample: a caller whose own task set is empty (the store
holds only another user's task) invokes the delete tool with an unknown id;
the invocation fails, but the error is the "You don\x27t have any tasks yet"
text, which does not mention "not found" — so the claim as stated fails. -/
theorem c2_counterexample_empty_set_message :
    executeToolCall "u" "delete_task" [("task_id", Val.str "B")] 0 "f"
        [{ id := "C", user_id := "v", title := "other", description := none,
           completed := false, created_at := 0, completed_at := none }]
      = ("Error: You don\x27t have any tasks yet. Create some tasks first!",
         [{ id := "C", user_id := "v", title := "other", description := none,
            completed := false, created_at := 0, completed_at := none }])
    ∧ strContains "Error: You don\x27t have any tasks yet. Create some tasks first!" "not found" = false := by
  constructor
  · rfl
  · rfl

/-- Claim C5 (confirmed): when the first completion reply carries no tool
invocations, the turn makes exactly one completion-provider call; when it
carries invocations, they all execute sequentially in the order received,
and exactly one follow-up completion call follows, carrying the message list
with one tool-outcome message per invocation (correlation ids in order)
appended after the assistant message. -/
theorem c5_completion_call_discipline (caller userMessage : String) (history : List Msg)
    (store : Store) (firstReply : Reply) (fu : Option String) (now : Nat)
    (freshIds : Nat → String) :
    (firstReply.toolCalls = [] →
      (processMessage caller userMessage history store firstReply fu now freshIds).trace
        = [Event.completion
            (Msg.system (effectiveSystemPrompt caller userMessage store) :: (history ++ [Msg.user userMessage])) true])
    ∧ (firstReply.toolCalls ≠ [] →
      (processMessage caller userMessage history store firstReply fu now freshIds).trace
        = Event.completion
            (Msg.system (effectiveSystemPrompt caller userMessage store) :: (history ++ [Msg.user userMessage])) true
          :: (firstReply.toolCalls.map (fun c => Event.toolExec c.id c.name)
              ++ [Event.completion
                    ((Msg.system (effectiveSystemPrompt caller userMessage store) :: (history ++ [Msg.user userMessage]))
                      ++ [Msg.assistant (firstReply.content.getD "") firstReply.toolCalls]
                      ++ (toolRound caller now freshIds firstReply.toolCalls 0 store).1) false])
      ∧ ((toolRound caller now freshIds firstReply.toolCalls 0 store).1).map msgCallId
          = firstReply.toolCalls.map (fun c => some c.id)) := by
  constructor
  · intro h
    unfold processMessage
    simp [h]
  · intro h
    have hne : firstReply.toolCalls.isEmpty = false := isEmpty_false_of_ne_nil h
    refine ⟨?_, toolRound_msg_ids caller now freshIds firstReply.toolCalls 0 store⟩
    unfold processMessage
    simp [hne, toolRound_events]

/-- Witness for `c5_completion_call_discipline`: one concrete turn with no
tool invocations (one completion call) and one with a single invocation
(execution then exactly one follow-up call). -/
theorem c5_completion_call_discipline_witness :
    (processMessage "u" "hello" [] [] ⟨some "hi", []⟩ none 0 (fun _ => "g")).trace
      = [Event.completion
          (Msg.system (effectiveSystemPrompt "u" "hello" []) :: (([] : List Msg) ++ [Msg.user "hello"])) true]
    ∧ (processMessage "u" "go" [] [] ⟨none, [⟨"c1", "list_tasks", []⟩]⟩ (some "done") 0 (fun _ => "g")).trace
      = Event.completion
          (Msg.system (effectiveSystemPrompt "u" "go" []) :: (([] : List Msg) ++ [Msg.user "go"])) true
        :: (([⟨"c1", "list_tasks", []⟩] : List ToolCall).map (fun c => Event.toolExec c.id c.name)
            ++ [Event.completion
                  ((Msg.system (effectiveSystemPrompt "u" "go" []) :: (([] : List Msg) ++ [Msg.user "go"]))
                    ++ [Msg.assistant ((some (α := String) "").getD "") [⟨"c1", "list_tasks", []⟩]]
                    ++ (toolRound "u" 0 (fun _ => "g") [⟨"c1", "list_tasks", []⟩] 0 []).1) false]) :=
  ⟨(c5_completion_call_discipline "u" "hello" [] [] ⟨some "hi", []⟩ none 0 (fun _ => "g")).1 rfl,
   ((c5_completion_call_discipline "u" "go" [] [] ⟨none, [⟨"c1", "list_tasks", []⟩]⟩ (some "done") 0
      (fun _ => "g")).2 (by simp)).1⟩

/-- Claim C7 (confirmed): the system instructions sent on the first
completion call differ from the plain `SYSTEM_PROMPT` exactly when the
lowercased user message contains one of the fixed mutation keywords and the
caller's full task listing (fetched including completed tasks) is non-empty;
in that case they are the prompt extended with the enumerated task context
(1-based, by construction of `ctxTaskLines`), and otherwise they are the
plain prompt unchanged. -/
theorem c7_preload_iff_keyword_and_nonempty (caller userMessage : String) (store : Store) :
    (effectiveSystemPrompt caller userMessage store ≠ SYSTEM_PROMPT
      ↔ needsTaskList userMessage = true ∧ (listTasksH caller true store).tasks ≠ [])
    ∧ (needsTaskList userMessage = true → (listTasksH caller true store).tasks ≠ [] →
        effectiveSystemPrompt caller userMessage store
          = SYSTEM_PROMPT ++ ctxAddendum (listTasksH caller true store).tasks)
    ∧ (∀ (history : List Msg) (firstReply : Reply) (fu : Option String) (now : Nat)
          (freshIds : Nat → String),
        (processMessage caller userMessage history store firstReply fu now freshIds).trace.head?
          = some (Event.completion
              (Msg.system (effectiveSystemPrompt caller userMessage store) :: (history ++ [Msg.user userMessage])) true)) := by
  have hsome : (getTool startupRegistry "list_tasks").isSome = true := rfl
  have hmain : effectiveSystemPrompt caller userMessage store
      = if needsTaskList userMessage = true ∧ (listTasksH caller true store).tasks ≠ [] then
          SYSTEM_PROMPT ++ ctxAddendum (listTasksH caller true store).tasks
        else SYSTEM_PROMPT := by
    unfold effectiveSystemPrompt
    cases hn : needsTaskList userMessage with
    | false => simp [hn]
    | true =>
      rw [hsome]
      simp only [listTasksH_success, Bool.true_and, if_true]
      by_cases he : (listTasksH caller true store).tasks = []
      · simp [he]
      · simp [isEmpty_false_of_ne_nil he, he]
  refine ⟨?_, ?_, ?_⟩
  · rw [hmain]
    by_cases hc : needsTaskList userMessage = true ∧ (listTasksH caller true store).tasks ≠ []
    · rw [if_pos hc]
      exact iff_of_true (str_append_ne _ _ (ctxAddendum_length_pos _)) hc
    · rw [if_neg hc]
      exact iff_of_false (fun h => h rfl) hc
  · intro h1 h2
    rw [hmain, if_pos ⟨h1, h2⟩]
  · intro history firstReply fu now freshIds
    unfold processMessage
    cases hb : firstReply.toolCalls.isEmpty <;> simp [hb]

/-- Witness for `c7_preload_iff_keyword_and_nonempty`: a message containing
"delete" with one existing task yields the enhanced instructions. -/
theorem c7_preload_iff_keyword_and_nonempty_witness :
    effectiveSystemPrompt "u" "please delete it"
        [{ id := "A", user_id := "u", title := "x", description := none,
           completed := false, created_at := 0, completed_at := none }]
      = SYSTEM_PROMPT ++ ctxAddendum
          (listTasksH "u" true
            [{ id := "A", user_id := "u", title := "x", description := none,
               completed := false, created_at := 0, completed_at := none }]).tasks :=
  (c7_preload_iff_keyword_and_nonempty "u" "please delete it"
    [{ id := "A", user_id := "u", title := "x", description := none,
       completed := false, created_at := 0, completed_at := none }]).2.1
    (by decide) (by decide)

/-- Claim C8 amended: when a tool round occurred and the follow-up completion
call yields no text (no content or empty content), the turn emits no response
text at all — the source has no fallback acknowledgment in this branch (the
generic fallback exists only in the no-tool-calls branch), so the claim's
promised "generic success acknowledgment" does not happen. -/
theorem c8_no_followup_text_yields_nothing (caller userMessage : String)
    (history : List Msg) (store : Store) (firstReply : Reply) (fu : Option String)
    (now : Nat) (freshIds : Nat → String)
    (hcalls : firstReply.toolCalls ≠ [])
    (hfu : fu = none ∨ fu = some "") :
    (processMessage caller userMessage history store firstReply fu now freshIds).yields = [] := by
  have hne : firstReply.toolCalls.isEmpty = false := isEmpty_false_of_ne_nil hcalls
  unfold processMessage
  rcases hfu with h | h <;> subst h <;> simp [hne]

/-- Witness for `c8_no_followup_text_yields_nothing` at a concrete turn. -/
theorem c8_no_followup_text_yields_nothing_witness :
    (processMessage "u" "hey" [] [] ⟨some "t", [⟨"c9", "list_tasks", []⟩]⟩ none 0
        (fun _ => "g")).yields = [] :=
  c8_no_followup_text_yields_nothing "u" "hey" [] [] ⟨some "t", [⟨"c9", "list_tasks", []⟩]⟩
    none 0 (fun _ => "g") (by simp) (Or.inl rfl)

/-- Claim C8 counterexample: a concrete turn in which a tool executed and the
follow-up completion returned no content ends with an empty yield list — not
with the generic success acknowledgment the claim promises. -/
theorem c8_counterexample_silent_turn :
    (processMessage "u" "hi" [] [] ⟨none, [⟨"c1", "list_tasks", []⟩]⟩ none 0
        (fun _ => "id")).yields = [] := by
  rfl

/-- Claim C10 (confirmed): for an `update_task` call on a task owned by the
caller, passing the empty string as description clears the stored description
to an absent value, passing a non-empty description stores it verbatim, and
omitting the argument (Python `None`) leaves the stored description
unchanged; each such call reports success. -/
theorem c10_update_description_semantics (store : Store) (uid tid : String)
    (titleArg : Option String) (task : Task)
    (hfind : store.find? (taskPred uid tid) = some task) :
    ((updateTask uid tid titleArg (some "") store).2.find? (taskPred uid tid)).map
        (fun t => t.description) = some none
    ∧ (updateTask uid tid titleArg (some "") store).1.success = true
    ∧ (∀ d : String, d ≠ "" →
        ((updateTask uid tid titleArg (some d) store).2.find? (taskPred uid tid)).map
            (fun t => t.description) = some (some d)
        ∧ (updateTask uid tid titleArg (some d) store).1.success = true)
    ∧ ((updateTask uid tid titleArg none store).2.find? (taskPred uid tid)).map
        (fun t => t.description) = some task.description
    ∧ (updateTask uid tid titleArg none store).1.success = true := by
  have hrep : ∀ de : Option String,
      (updateTask uid tid titleArg de store).2.find? (taskPred uid tid)
        = some (applyUpdate titleArg de task) := by
    intro de
    unfold updateTask
    rw [hfind]
    simp only
    rw [find?_replaceFirst (taskPred uid tid) (applyUpdate titleArg de) store
        (taskPred_applyUpdate uid tid titleArg de), hfind]
    rfl
  have hsucc : ∀ de : Option String, (updateTask uid tid titleArg de store).1.success = true := by
    intro de
    unfold updateTask
    rw [hfind]
  refine ⟨?_, hsucc _, ?_, ?_, hsucc _⟩
  · rw [hrep (some "")]
    cases titleArg <;> simp [applyUpdate]
  · intro d hd
    refine ⟨?_, hsucc _⟩
    rw [hrep (some d)]
    cases titleArg <;> simp [applyUpdate, hd]
  · rw [hrep none]
    cases titleArg <;> simp [applyUpdate]

/-- Witness for `c10_update_description_semantics`: clearing the description
of an owned task with the empty string. -/
theorem c10_update_description_semantics_witness :
    ((updateTask "u" "A" none (some "")
        [{ id := "A", user_id := "u", title := "x", description := some "old",
           completed := false, created_at := 0, completed_at := none }]).2.find?
        (taskPred "u" "A")).map (fun t => t.description) = some none :=
  (c10_update_description_semantics
    [{ id := "A", user_id := "u", title := "x", description := some "old",
       completed := false, created_at := 0, completed_at := none }] "u" "A" none
    { id := "A", user_id := "u", title := "x", description := some "old",
      completed := false, created_at := 0, completed_at := none } (by decide)).1

end Taskflow
